import Mathlib

/-!
Shallow embedding of the OCR + generation pipeline of the repository
(`ocr_processor.py`, `ai_engine.py`).  External library calls (Tesseract
OCR, the transformers tokenizer/model) are modelled as oracles: an
`Option`/record value describes the outcome of each library call, with
`none` standing for a raised exception.  Python floats are embedded as
exact rationals; Python ints as `Int`/`Nat`.
-/

/-- Whitespace characters recognised by Python `str.strip` / `str.split`
(ASCII whitespace: space, tab, newline, carriage return, vertical tab,
form feed). -/
def isPySpace (c : Char) : Bool :=
  c = ' ' || c = '\t' || c = '\n' || c = '\r' || c = '\x0b' || c = '\x0c'

/-- Python `str.strip()` on a character list: drop whitespace from both ends. -/
def stripList (l : List Char) : List Char :=
  ((l.dropWhile isPySpace).reverse.dropWhile isPySpace).reverse

/-- Python `str.strip()`. -/
def pyStrip (s : String) : String :=
  String.mk (stripList s.toList)

/-- Python slicing `s[n:]` (by code points). -/
def dropChars (s : String) (n : Nat) : String :=
  String.mk (s.toList.drop n)

/-- Split a character list at every character satisfying `p`, keeping empty
segments: Python `str.split(sep)` for a one-character separator `sep`. -/
def splitOnPred (p : Char → Bool) : List Char → List (List Char)
  | [] => [[]]
  | c :: cs =>
    let rest := splitOnPred p cs
    if p c then [] :: rest
    else
      match rest with
      | [] => [[c]]
      | t :: ts => (c :: t) :: ts

/-- Python `str.split()` with no arguments: split on whitespace runs,
discarding empty segments. -/
def pySplitWs (l : List Char) : List (List Char) :=
  (splitOnPred isPySpace l).filter (fun t => t ≠ [])

/-- Python `' '.join(line.split())`: collapse internal whitespace runs to
single spaces and trim the ends. -/
def collapseWs (l : List Char) : List Char :=
  List.intercalate [' '] (pySplitWs l)

/-- `OCRProcessor.clean_text` (ocr_processor.py, lines 73-98): split the raw
text on newlines, collapse each line's whitespace, keep a line when its
stripped form is non-empty (Python truthiness of `line.strip()`), and
rejoin the kept lines with newlines. -/
def clean_text (text : String) : String :=
  let lines := splitOnPred (fun c => c = '\n') text.toList
  let cleaned_lines := lines.foldl
    (fun acc line =>
      let line := collapseWs line
      if stripList line ≠ [] then acc ++ [line] else acc) []
  String.mk (List.intercalate ['\n'] cleaned_lines)

/-- Reference post-processing written from the spec's words: "split the
input on newline characters, collapse each line's internal whitespace by
joining its whitespace-separated tokens with single spaces, drop lines
that are blank after collapsing, and rejoin the remaining lines with
single newlines". -/
def cleanTextSpec (text : String) : String :=
  String.mk (List.intercalate ['\n']
    (((splitOnPred (fun c => c = '\n') text.toList).map collapseWs).filter
      (fun l => l ≠ [])))

/-- Number of characters of `s` with code point greater than 127
(`sum(1 for char in text if ord(char) > 127)`). -/
def countNonAscii (s : String) : Nat :=
  (s.toList.filter (fun c => 127 < c.toNat)).length

/-- The non-ASCII character fraction used by `detect_language`. -/
def nonAsciiFrac (s : String) : ℚ :=
  (countNonAscii s : ℚ) / (s.length : ℚ)

/-- `OCRProcessor.detect_language` (ocr_processor.py, lines 132-159): count
characters with code point above 127; empty text is English; a non-ASCII
fraction strictly above 0.3 is Spanish, anything else English. -/
def detect_language (text : String) : String :=
  let non_ascii_count := countNonAscii text
  let total_chars := text.length
  if total_chars = 0 then "en"
  else if (non_ascii_count : ℚ) / (total_chars : ℚ) > 3 / 10 then "es"
  else "en"

/-- Outcome of the external library calls made while processing one
uploaded image.  `decodeOk = false` models an exception raised while
decoding the image (`Image.open` / `np.array`); `ocrText = none` models an
exception anywhere inside `extract_text`'s try block (preprocessing or
`pytesseract.image_to_string`), otherwise the raw string the OCR call
returned; `ocrConf = none` models an exception anywhere inside
`get_text_confidence`'s try block, otherwise the `conf` column of
`pytesseract.image_to_data`. -/
structure OcrOutcome where
  decodeOk : Bool
  ocrText : Option String
  ocrConf : Option (List Int)

/-- `OCRProcessor.extract_text` (ocr_processor.py, lines 44-71): run OCR
and clean the result; any exception is caught and yields `""`. -/
def extract_text (o : OcrOutcome) : String :=
  match o.ocrText with
  | some raw => clean_text raw
  | none => ""

/-- `OCRProcessor.get_text_confidence` (ocr_processor.py, lines 100-130):
keep the confidence values strictly greater than zero and average them;
no positive value, or any exception, yields `0.0`. -/
def get_text_confidence (o : OcrOutcome) : ℚ :=
  match o.ocrConf with
  | some data =>
    let confidences := data.filter (fun conf => 0 < conf)
    if confidences ≠ [] then (confidences.sum : ℚ) / (confidences.length : ℚ)
    else 0
  | none => 0

/-- `OCRProcessor.process_uploaded_image` (ocr_processor.py, lines
161-189): decode the image, extract text, compute confidence, detect the
language; an exception escaping to this level (image decoding) yields the
soft-fail triple `("", 0.0, "en")`.  The embedding is a total function:
no outcome raises to the caller. -/
def process_uploaded_image (o : OcrOutcome) : String × ℚ × String :=
  if o.decodeOk then
    let text := extract_text o
    let confidence := get_text_confidence o
    let language := detect_language text
    (text, confidence, language)
  else ("", 0, "en")

/-- Mutable state of `AIEngine` (ai_engine.py): whether a model is loaded
and the generation settings set in `__init__` (lines 10-21) and mutated
only by `update_settings` (lines 280-294).  Python floats are embedded as
exact rationals. -/
structure EngineState where
  model_loaded : Bool
  temperature : ℚ
  top_p : ℚ
  max_length : Int

/-- `AIEngine.__init__`: `model_loaded = False`, `max_length = 2048`,
`temperature = 0.7`, `top_p = 0.9`. -/
def initEngine : EngineState :=
  { model_loaded := false, temperature := 7 / 10, top_p := 9 / 10, max_length := 2048 }

/-- `AIEngine.update_settings` (ai_engine.py, lines 280-294): each argument
that is supplied (`is not None`) is clamped into its range and written;
missing arguments leave their field untouched. -/
def update_settings (st : EngineState) (temperature top_p : Option ℚ)
    (max_length : Option Int) : EngineState :=
  let st1 := match temperature with
    | some t => { st with temperature := max (1 / 10) (min 2 t) }
    | none => st
  let st2 := match top_p with
    | some p => { st1 with top_p := max (1 / 10) (min 1 p) }
    | none => st1
  match max_length with
  | some m => { st2 with max_length := max 100 (min 4096 m) }
  | none => st2

/-- The valid ranges of the generation settings: temperature in
[0.1, 2.0], top_p in [0.1, 1.0], max_length in [100, 4096]. -/
def validSettings (st : EngineState) : Prop :=
  1 / 10 ≤ st.temperature ∧ st.temperature ≤ 2 ∧
  1 / 10 ≤ st.top_p ∧ st.top_p ≤ 1 ∧
  100 ≤ st.max_length ∧ st.max_length ≤ 4096

/-- A prompt template with a single placeholder, represented by the text
before and after the placeholder.  The Python source stores each template
as one string containing `{text}` / `{question}` / `{concept}` and
interpolates with `str.format`, which substitutes the argument for the
single placeholder; equivalently `pre ++ argument ++ post`. -/
structure Template where
  pre : String
  post : String
deriving DecidableEq

/-- `template.format(...=txt)`: interpolate `txt` at the placeholder. -/
def formatTemplate (t : Template) (txt : String) : String :=
  t.pre ++ txt ++ t.post

/-- Reassemble the literal template string of the Python source, with the
placeholder `ph` written back in place. -/
def templateString (t : Template) (ph : String) : String :=
  t.pre ++ ph ++ t.post

/-- `self.prompts['summarize']['en']` split at `{text}`. -/
def summarize_en : Template :=
  ⟨"You are a helpful educational assistant. Summarize the following textbook content in simple terms that a 12-year-old student can understand. Focus on the main concepts and explain them clearly:\n\n",
   "\n\nSummary:"⟩

/-- `self.prompts['summarize']['es']` split at `{text}`. -/
def summarize_es : Template :=
  ⟨"Eres un asistente educativo útil. Resume el siguiente contenido del libro de texto en términos simples que un estudiante de 12 años pueda entender. Enfócate en los conceptos principales y explícalos claramente:\n\n",
   "\n\nResumen:"⟩

/-- `self.prompts['summarize']['fr']` split at `{text}`. -/
def summarize_fr : Template :=
  ⟨"Vous êtes un assistant éducatif utile. Résumez le contenu suivant du manuel en termes simples qu\x27un étudiant de 12 ans peut comprendre. Concentrez-vous sur les concepts principaux et expliquez-les clairement:\n\n",
   "\n\nRésumé:"⟩

/-- `self.prompts['summarize']['de']` split at `{text}`. -/
def summarize_de : Template :=
  ⟨"Sie sind ein hilfreicher Bildungsassistent. Fassen Sie den folgenden Lehrbuchinhalt in einfachen Begriffen zusammen, die ein 12-jähriger Schüler verstehen kann. Konzentrieren Sie sich auf die Hauptkonzepte und erklären Sie sie klar:\n\n",
   "\n\nZusammenfassung:"⟩

/-- `self.prompts['answer_question']['en']` split at `{question}`. -/
def answer_en : Template :=
  ⟨"You are a helpful educational assistant. Answer the following question in a way that a school student can understand. Provide a clear, accurate, and educational response:\n\nQuestion: ",
   "\n\nAnswer:"⟩

/-- `self.prompts['answer_question']['es']` split at `{question}`. -/
def answer_es : Template :=
  ⟨"Eres un asistente educativo útil. Responde la siguiente pregunta de una manera que un estudiante escolar pueda entender. Proporciona una respuesta clara, precisa y educativa:\n\nPregunta: ",
   "\n\nRespuesta:"⟩

/-- `self.prompts['answer_question']['fr']` split at `{question}`. -/
def answer_fr : Template :=
  ⟨"Vous êtes un assistant éducatif utile. Répondez à la question suivante d\x27une manière qu\x27un étudiant peut comprendre. Fournissez une réponse claire, précise et éducative:\n\nQuestion: ",
   "\n\nRéponse:"⟩

/-- `self.prompts['answer_question']['de']` split at `{question}`. -/
def answer_de : Template :=
  ⟨"Sie sind ein hilfreicher Bildungsassistent. Beantworten Sie die folgende Frage so, dass ein Schüler sie verstehen kann. Geben Sie eine klare, genaue und lehrreiche Antwort:\n\nFrage: ",
   "\n\nAntwort:"⟩

/-- `self.prompts['explain_concept']['en']` split at `{concept}`. -/
def explain_en : Template :=
  ⟨"You are a helpful educational assistant. Explain the following concept in simple terms that a student can understand. Use examples and analogies if helpful:\n\nConcept: ",
   "\n\nExplanation:"⟩

/-- `self.prompts['explain_concept']['es']` split at `{concept}`. -/
def explain_es : Template :=
  ⟨"Eres un asistente educativo útil. Explica el siguiente concepto en términos simples que un estudiante pueda entender. Usa ejemplos y analogías si es útil:\n\nConcepto: ",
   "\n\nExplicación:"⟩

/-- `self.prompts['explain_concept']['fr']` split at `{concept}`. -/
def explain_fr : Template :=
  ⟨"Vous êtes un assistant éducatif utile. Expliquez le concept suivant en termes simples qu\x27un étudiant peut comprendre. Utilisez des exemples et des analogies si c\x27est utile:\n\nConcept: ",
   "\n\nExplication:"⟩

/-- `self.prompts['explain_concept']['de']` split at `{concept}`. -/
def explain_de : Template :=
  ⟨"Sie sind ein hilfreicher Bildungsassistent. Erklären Sie das folgende Konzept in einfachen Begriffen, die ein Schüler verstehen kann. Verwenden Sie Beispiele und Analogien, wenn es hilfreich ist:\n\nKonzept: ",
   "\n\nErklärung:"⟩

/-- The f-string translation prompts of `translate_text` (ai_engine.py,
lines 249-254), split at the interpolated `{text}`. -/
def translate_es : Template :=
  ⟨"Translate the following text to Spanish:\n\n", "\n\nTranslation:"⟩

/-- See `translate_es`. -/
def translate_fr : Template :=
  ⟨"Translate the following text to French:\n\n", "\n\nTranslation:"⟩

/-- See `translate_es`. -/
def translate_de : Template :=
  ⟨"Translate the following text to German:\n\n", "\n\nTranslation:"⟩

/-- See `translate_es`. -/
def translate_en : Template :=
  ⟨"Translate the following text to English:\n\n", "\n\nTranslation:"⟩

/-- `self.prompts['summarize'].get(language, self.prompts['summarize']['en'])`:
dictionary lookup over the keys en/es/fr/de with the English template as
the default for any other key. -/
def promptsSummarize (language : String) : Template :=
  if language = "en" then summarize_en
  else if language = "es" then summarize_es
  else if language = "fr" then summarize_fr
  else if language = "de" then summarize_de
  else summarize_en

/-- `self.prompts['answer_question'].get(language, ...['en'])`. -/
def promptsAnswer (language : String) : Template :=
  if language = "en" then answer_en
  else if language = "es" then answer_es
  else if language = "fr" then answer_fr
  else if language = "de" then answer_de
  else answer_en

/-- `self.prompts['explain_concept'].get(language, ...['en'])`. -/
def promptsExplain (language : String) : Template :=
  if language = "en" then explain_en
  else if language = "es" then explain_es
  else if language = "fr" then explain_fr
  else if language = "de" then explain_de
  else explain_en

/-- `translation_prompts.get(target_language, translation_prompts['en'])`. -/
def translation_prompts (target_language : String) : Template :=
  if target_language = "en" then translate_en
  else if target_language = "es" then translate_es
  else if target_language = "fr" then translate_fr
  else if target_language = "de" then translate_de
  else translate_en

/-- The task kinds of the generation engine. -/
inductive TaskKind where
  | summarize
  | answer
  | explain
  | translate
deriving DecidableEq

/-- The template each task function selects for a language code. -/
def taskTemplate : TaskKind → String → Template
  | TaskKind.summarize, language => promptsSummarize language
  | TaskKind.answer, language => promptsAnswer language
  | TaskKind.explain, language => promptsExplain language
  | TaskKind.translate, language => translation_prompts language

/-- The prompt each task function constructs from its user-supplied text:
template selection followed by placeholder interpolation. -/
def buildPrompt (task : TaskKind) (language text : String) : String :=
  formatTemplate (taskTemplate task language) text

/-- Oracle for the opaque tokenize/generate/decode pipeline inside
`generate_response`'s try block: given the engine state (whose
`temperature`, `top_p` and `max_length` parameterise tokenization and
sampling), the prompt, and the effective `max_length` passed to
`model.generate`, it returns `some decoded` (the full decoded output of
`tokenizer.decode`) or `none` for a raised exception. -/
def GenOracle : Type :=
  EngineState → String → Int → Option String

/-- `max_length or self.max_length` (Python truthiness: a supplied 0 also
falls back to the stored setting). -/
def effectiveLength (st : EngineState) (max_length : Option Int) : Int :=
  match max_length with
  | some m => if m = 0 then st.max_length else m
  | none => st.max_length

/-- `AIEngine.generate_response` (ai_engine.py, lines 100-154): an
unloaded model returns `""`; an exception inside the try block returns
`""`; otherwise the decoded output minus its first `len(prompt)`
characters, stripped (`response[len(prompt):].strip()`). -/
def generate_response (oracle : GenOracle) (st : EngineState) (prompt : String)
    (max_length : Option Int) : String :=
  if st.model_loaded then
    match oracle st prompt (effectiveLength st max_length) with
    | some response => pyStrip (dropChars response prompt.length)
    | none => ""
  else ""

/-- `AIEngine.summarize_text` (ai_engine.py, lines 156-180). -/
def summarize_text (oracle : GenOracle) (st : EngineState) (text language : String) :
    String :=
  if pyStrip text = "" then "No text provided for summarization."
  else
    let prompt := formatTemplate (promptsSummarize language) text
    let summary := generate_response oracle st prompt (some 500)
    if summary = "" then "Unable to generate summary at this time."
    else summary

/-- `AIEngine.answer_question` (ai_engine.py, lines 182-206). -/
def answer_question (oracle : GenOracle) (st : EngineState) (question language : String) :
    String :=
  if pyStrip question = "" then "No question provided."
  else
    let prompt := formatTemplate (promptsAnswer language) question
    let answer := generate_response oracle st prompt (some 800)
    if answer = "" then "Unable to generate answer at this time."
    else answer

/-- `AIEngine.explain_concept` (ai_engine.py, lines 208-232). -/
def explain_concept (oracle : GenOracle) (st : EngineState) (concept language : String) :
    String :=
  if pyStrip concept = "" then "No concept provided for explanation."
  else
    let prompt := formatTemplate (promptsExplain language) concept
    let explanation := generate_response oracle st prompt (some 600)
    if explanation = "" then "Unable to generate explanation at this time."
    else explanation

/-- `AIEngine.translate_text` (ai_engine.py, lines 234-259): blank input
returns `""`; on an empty generation result the ORIGINAL input text is
returned (`return translation if translation else text`). -/
def translate_text (oracle : GenOracle) (st : EngineState) (text target_language : String) :
    String :=
  if pyStrip text = "" then ""
  else
    let prompt := formatTemplate (translation_prompts target_language) text
    let translation := generate_response oracle st prompt (some 400)
    if translation = "" then text else translation

/-- An oracle on which every generation call raises (or is never
consulted). -/
def oracleFail : GenOracle := fun _ _ _ => none

/-- An oracle whose decoded output is always `"hihi there"`. -/
def oracleEcho : GenOracle := fun _ _ _ => some "hihi there"

/-- `initEngine` with a successfully loaded model. -/
def loadedEngine : EngineState :=
  { initEngine with model_loaded := true }

theorem mem_of_mem_dropWhileP {p : Char → Bool} {l : List Char} {x : Char}
    (h : x ∈ List.dropWhile p l) : x ∈ l := by
  rw [← List.takeWhile_append_dropWhile p l]
  exact List.mem_append_right _ h

theorem stripList_eq_nil_iff (l : List Char) :
    stripList l = [] ↔ ∀ c ∈ l, isPySpace c = true := by
  unfold stripList
  rw [List.reverse_eq_nil_iff, List.dropWhile_eq_nil_iff]
  constructor
  · intro h c hc
    have hsplit := List.takeWhile_append_dropWhile isPySpace l
    rcases List.mem_append.mp (hsplit ▸ hc) with h1 | h2
    · exact List.mem_takeWhile_imp h1
    · exact h c (List.mem_reverse.mpr h2)
  · intro h c hc
    exact h c (mem_of_mem_dropWhileP (List.mem_reverse.mp hc))

theorem splitOnPred_ne_nil (p : Char → Bool) (l : List Char) :
    splitOnPred p l ≠ [] := by
  cases l with
  | nil => simp [splitOnPred]
  | cons c cs =>
    simp only [splitOnPred]
    by_cases hc : p c
    · simp [hc]
    · simp only [hc, if_false]
      cases splitOnPred p cs with
      | nil => simp
      | cons t ts => simp

theorem splitOnPred_cons (p : Char → Bool) (a : Char) (as : List Char) :
    splitOnPred p (a :: as) =
      if p a then [] :: splitOnPred p as
      else
        match splitOnPred p as with
        | [] => [[a]]
        | t :: ts => (a :: t) :: ts := rfl

theorem splitOnPred_chars (p : Char → Bool) (l : List Char) :
    ∀ t ∈ splitOnPred p l, ∀ c ∈ t, p c = false := by
  induction l with
  | nil =>
    intro t ht c hc
    simp only [splitOnPred, List.mem_singleton] at ht
    subst ht
    simp at hc
  | cons a as ih =>
    intro t ht c hc
    rw [splitOnPred_cons p a as] at ht
    cases ha : p a with
    | true =>
      simp only [ha, if_true, List.mem_cons] at ht
      rcases ht with h | h
      · subst h; simp at hc
      · exact ih t h c hc
    | false =>
      simp only [ha, if_false] at ht
      rcases hrest : splitOnPred p as with _ | ⟨t0, ts⟩
      · exact absurd hrest (splitOnPred_ne_nil p as)
      · rw [hrest] at ht
        rcases List.mem_cons.mp ht with h | h
        · subst h
          rcases List.mem_cons.mp hc with h1 | h1
          · subst h1; exact ha
          · exact ih t0 (by rw [hrest]; exact List.mem_cons_self _ _) c h1
        · exact ih t (by rw [hrest]; exact List.mem_cons_of_mem _ h) c hc

theorem mem_intercalate_head {c : Char} {t : List Char} (s : List Char)
    (ts : List (List Char)) (hc : c ∈ t) : c ∈ List.intercalate s (t :: ts) := by
  cases ts with
  | nil => simpa [List.intercalate, List.intersperse] using hc
  | cons u us =>
    simp only [List.intercalate, List.intersperse, List.flatten]
    exact List.mem_append_left _ hc

theorem stripList_collapseWs_eq_nil_iff (l : List Char) :
    stripList (collapseWs l) = [] ↔ collapseWs l = [] := by
  constructor
  · intro h
    rcases hs : pySplitWs l with _ | ⟨t, ts⟩
    · simp [collapseWs, hs, List.intercalate]
    · exfalso
      have htmem : t ∈ pySplitWs l := by rw [hs]; exact List.mem_cons_self _ _
      have ht := List.mem_filter.mp htmem
      have ht_ne : t ≠ [] := by simpa using ht.2
      rcases ht_t : t with _ | ⟨c0, t0⟩
      · exact ht_ne ht_t
      · have hc0t : c0 ∈ t := by rw [ht_t]; exact List.mem_cons_self _ _
        have hc0 : isPySpace c0 = false :=
          splitOnPred_chars isPySpace l t ht.1 c0 hc0t
        have hc0mem : c0 ∈ collapseWs l := by
          rw [collapseWs, hs]
          exact mem_intercalate_head [' '] ts hc0t
        have := (stripList_eq_nil_iff (collapseWs l)).mp h c0 hc0mem
        rw [hc0] at this
        exact Bool.false_ne_true this
  · intro h
    rw [h]
    simp [stripList]

theorem clean_text_foldl (lines : List (List Char)) (acc : List (List Char)) :
    lines.foldl (fun acc line =>
      let line := collapseWs line
      if stripList line ≠ [] then acc ++ [line] else acc) acc
    = acc ++ (lines.map collapseWs).filter (fun l => l ≠ []) := by
  induction lines generalizing acc with
  | nil => simp
  | cons x xs ih =>
    simp only [List.foldl_cons, List.map_cons, List.filter_cons]
    by_cases hx : collapseWs x = []
    · have h1 : ¬ (stripList (collapseWs x) ≠ []) := by
        rw [hx]; simp [stripList]
      rw [if_neg h1, ih acc]
      simp [hx]
    · have h1 : stripList (collapseWs x) ≠ [] := by
        rw [Ne, stripList_collapseWs_eq_nil_iff]; exact hx
      rw [if_pos h1, ih (acc ++ [collapseWs x])]
      simp [hx]

theorem list_sum_le_mul_length (l : List Int) (b : Int) (h : ∀ c ∈ l, c ≤ b) :
    l.sum ≤ b * l.length := by
  induction l with
  | nil => simp
  | cons x xs ih =>
    simp only [List.sum_cons, List.length_cons]
    have h2 := ih (fun c hc => h c (List.mem_cons_of_mem _ hc))
    have hx := h x (List.mem_cons_self _ _)
    push_cast
    nlinarith [h2, hx]

theorem list_sum_nonneg_of_pos (l : List Int) (h : ∀ c ∈ l, 0 < c) :
    0 ≤ l.sum := by
  induction l with
  | nil => simp
  | cons x xs ih =>
    simp only [List.sum_cons]
    have h2 := ih (fun c hc => h c (List.mem_cons_of_mem _ hc))
    have hx := h x (List.mem_cons_self _ _)
    omega

theorem detect_language_eq (text : String) :
    detect_language text =
      if text.length = 0 then "en"
      else if 3 / 10 < nonAsciiFrac text then "es" else "en" := rfl

theorem generate_response_fail (oracle : GenOracle) (st : EngineState)
    (prompt : String) (max_length : Option Int)
    (h : st.model_loaded = false ∨ ∀ s p n, oracle s p n = none) :
    generate_response oracle st prompt max_length = "" := by
  rcases h with h | h
  · simp [generate_response, h]
  · simp [generate_response, h]

theorem summarize_en_source :
    templateString summarize_en "{text}" = "You are a helpful educational assistant. Summarize the following textbook content in simple terms that a 12-year-old student can understand. Focus on the main concepts and explain them clearly:\n\n{text}\n\nSummary:" := rfl

theorem summarize_es_source :
    templateString summarize_es "{text}" = "Eres un asistente educativo útil. Resume el siguiente contenido del libro de texto en términos simples que un estudiante de 12 años pueda entender. Enfócate en los conceptos principales y explícalos claramente:\n\n{text}\n\nResumen:" := rfl

theorem summarize_fr_source :
    templateString summarize_fr "{text}" = "Vous êtes un assistant éducatif utile. Résumez le contenu suivant du manuel en termes simples qu\x27un étudiant de 12 ans peut comprendre. Concentrez-vous sur les concepts principaux et expliquez-les clairement:\n\n{text}\n\nRésumé:" := rfl

theorem summarize_de_source :
    templateString summarize_de "{text}" = "Sie sind ein hilfreicher Bildungsassistent. Fassen Sie den folgenden Lehrbuchinhalt in einfachen Begriffen zusammen, die ein 12-jähriger Schüler verstehen kann. Konzentrieren Sie sich auf die Hauptkonzepte und erklären Sie sie klar:\n\n{text}\n\nZusammenfassung:" := rfl

theorem answer_en_source :
    templateString answer_en "{question}" = "You are a helpful educational assistant. Answer the following question in a way that a school student can understand. Provide a clear, accurate, and educational response:\n\nQuestion: {question}\n\nAnswer:" := rfl

theorem answer_es_source :
    templateString answer_es "{question}" = "Eres un asistente educativo útil. Responde la siguiente pregunta de una manera que un estudiante escolar pueda entender. Proporciona una respuesta clara, precisa y educativa:\n\nPregunta: {question}\n\nRespuesta:" := rfl

theorem answer_fr_source :
    templateString answer_fr "{question}" = "Vous êtes un assistant éducatif utile. Répondez à la question suivante d\x27une manière qu\x27un étudiant peut comprendre. Fournissez une réponse claire, précise et éducative:\n\nQuestion: {question}\n\nRéponse:" := rfl

theorem answer_de_source :
    templateString answer_de "{question}" = "Sie sind ein hilfreicher Bildungsassistent. Beantworten Sie die folgende Frage so, dass ein Schüler sie verstehen kann. Geben Sie eine klare, genaue und lehrreiche Antwort:\n\nFrage: {question}\n\nAntwort:" := rfl

theorem explain_en_source :
    templateString explain_en "{concept}" = "You are a helpful educational assistant. Explain the following concept in simple terms that a student can understand. Use examples and analogies if helpful:\n\nConcept: {concept}\n\nExplanation:" := rfl

theorem explain_es_source :
    templateString explain_es "{concept}" = "Eres un asistente educativo útil. Explica el siguiente concepto en términos simples que un estudiante pueda entender. Usa ejemplos y analogías si es útil:\n\nConcepto: {concept}\n\nExplicación:" := rfl

theorem explain_fr_source :
    templateString explain_fr "{concept}" = "Vous êtes un assistant éducatif utile. Expliquez le concept suivant en termes simples qu\x27un étudiant peut comprendre. Utilisez des exemples et des analogies si c\x27est utile:\n\nConcept: {concept}\n\nExplication:" := rfl

theorem explain_de_source :
    templateString explain_de "{concept}" = "Sie sind ein hilfreicher Bildungsassistent. Erklären Sie das folgende Konzept in einfachen Begriffen, die ein Schüler verstehen kann. Verwenden Sie Beispiele und Analogien, wenn es hilfreich ist:\n\nKonzept: {concept}\n\nErklärung:" := rfl

theorem translate_es_source :
    templateString translate_es "{text}" = "Translate the following text to Spanish:\n\n{text}\n\nTranslation:" := rfl

theorem translate_fr_source :
    templateString translate_fr "{text}" = "Translate the following text to French:\n\n{text}\n\nTranslation:" := rfl

theorem translate_de_source :
    templateString translate_de "{text}" = "Translate the following text to German:\n\n{text}\n\nTranslation:" := rfl

theorem translate_en_source :
    templateString translate_en "{text}" = "Translate the following text to English:\n\n{text}\n\nTranslation:" := rfl

/-- C9: for every string, `clean_text` equals the reference
post-processing: split on newlines, collapse each line's internal
whitespace to single spaces, drop lines blank after collapsing, rejoin
with single newlines. -/
theorem clean_text_eq_spec (text : String) : clean_text text = cleanTextSpec text := by
  show String.mk (List.intercalate ['\n']
      ((splitOnPred (fun c => c = '\n') text.toList).foldl
        (fun acc line =>
          let line := collapseWs line
          if stripList line ≠ [] then acc ++ [line] else acc) []))
    = cleanTextSpec text
  rw [clean_text_foldl]
  rfl

theorem clamp_bounds {α : Type} [LinearOrder α] (lo hi x : α) (h : lo ≤ hi) :
    lo ≤ max lo (min hi x) ∧ max lo (min hi x) ≤ hi :=
  ⟨le_max_left _ _, max_le h (min_le_left _ _)⟩

/-- C2: the generation settings are in their valid ranges from
initialization on and after every `update_settings` call with any
arguments; `update_settings(temperature=5.0)` yields temperature 2.0 and
`update_settings(temperature=0.0)` yields 0.1. -/
theorem settings_always_in_range :
    validSettings initEngine ∧
    (∀ st t p m, validSettings st → validSettings (update_settings st t p m)) ∧
    (∀ st, (update_settings st (some 5) none none).temperature = 2) ∧
    (∀ st, (update_settings st (some 0) none none).temperature = 1 / 10) := by
  refine ⟨⟨by norm_num [initEngine], by norm_num [initEngine], by norm_num [initEngine],
    by norm_num [initEngine], by norm_num [initEngine], by norm_num [initEngine]⟩, ?_, ?_, ?_⟩
  · intro st t p m h
    obtain ⟨h1, h2, h3, h4, h5, h6⟩ := h
    rcases t with _ | tv <;> rcases p with _ | pv <;> rcases m with _ | mv <;>
      simp only [update_settings] <;>
      exact ⟨by first | assumption | exact (clamp_bounds _ _ _ (by norm_num)).1,
             by first | assumption | exact (clamp_bounds _ _ _ (by norm_num)).2,
             by first | assumption | exact (clamp_bounds _ _ _ (by norm_num)).1,
             by first | assumption | exact (clamp_bounds _ _ _ (by norm_num)).2,
             by first | assumption | exact (clamp_bounds _ _ _ (by norm_num)).1,
             by first | assumption | exact (clamp_bounds _ _ _ (by norm_num)).2⟩
  · intro st
    show max (1 / 10) (min 2 (5 : ℚ)) = 2
    norm_num
  · intro st
    show max (1 / 10) (min 2 (0 : ℚ)) = 1 / 10
    norm_num

theorem settings_always_in_range_witness :
    validSettings (update_settings initEngine (some 5) (some 0) (some 10000)) :=
  settings_always_in_range.2.1 initEngine (some 5) (some 0) (some 10000)
    (by norm_num [validSettings, initEngine])

/-- C7: for the empty string, `summarize_text` / `answer_question` /
`explain_concept` return their fixed "no ... provided" messages.  The
engine state and the generation oracle are universally quantified and
unused: generation is never invoked. -/
theorem empty_input_fixed_messages (oracle : GenOracle) (st : EngineState)
    (language : String) :
    summarize_text oracle st "" language = "No text provided for summarization." ∧
    answer_question oracle st "" language = "No question provided." ∧
    explain_concept oracle st "" language = "No concept provided for explanation." :=
  ⟨rfl, rfl, rfl⟩

/-- C10: for any input made only of whitespace characters, the three
educational task functions return their fixed "no ... provided" messages
and `translate_text` returns the empty string; the oracle and state are
arbitrary and unused, so the model is never invoked. -/
theorem whitespace_input_fixed_messages (oracle : GenOracle) (st : EngineState)
    (text language : String) (hws : ∀ c ∈ text.toList, isPySpace c = true) :
    summarize_text oracle st text language = "No text provided for summarization." ∧
    answer_question oracle st text language = "No question provided." ∧
    explain_concept oracle st text language = "No concept provided for explanation." ∧
    translate_text oracle st text language = "" := by
  have h : pyStrip text = "" := by
    unfold pyStrip
    rw [(stripList_eq_nil_iff text.toList).mpr hws]
  refine ⟨?_, ?_, ?_, ?_⟩ <;>
    simp [summarize_text, answer_question, explain_concept, translate_text, h]

theorem whitespace_input_fixed_messages_witness :
    summarize_text oracleFail initEngine " \t " "en" = "No text provided for summarization." ∧
    answer_question oracleFail initEngine " \t " "en" = "No question provided." ∧
    explain_concept oracleFail initEngine " \t " "en" = "No concept provided for explanation." ∧
    translate_text oracleFail initEngine " \t " "en" = "" :=
  whitespace_input_fixed_messages oracleFail initEngine " \t " "en" (by decide)

/-- C4 counterexample: for the ten-character string with exactly three
non-ASCII characters the non-ASCII fraction is exactly 0.3, which is not
below the threshold, so the claim as stated classifies it as Spanish; the
code returns English. -/
theorem detect_language_boundary_cex :
    ¬ (nonAsciiFrac "ÀÀÀabcdefg" < 3 / 10) ∧
    detect_language "ÀÀÀabcdefg" = "en" ∧ ("en" : String) ≠ "es" := by
  have h1 : countNonAscii "ÀÀÀabcdefg" = 3 := by decide
  have h2 : ("ÀÀÀabcdefg" : String).length = 10 := by decide
  have hfrac : nonAsciiFrac "ÀÀÀabcdefg" = 3 / 10 := by
    rw [nonAsciiFrac, h1, h2]; norm_num
  refine ⟨by rw [hfrac]; norm_num, ?_, by decide⟩
  rw [detect_language_eq, hfrac, h2]
  norm_num

/-- C4 (amended): `detect_language` returns "en" when the non-ASCII
fraction is less than OR EQUAL to 0.3 (the code tests strictly greater
than 0.3, so the boundary value 0.3 itself is English), "es" when it is
strictly greater than 0.3, "en" for the empty string, and never any other
code. -/
theorem detect_language_heuristic (text : String) :
    (text = "" → detect_language text = "en") ∧
    (nonAsciiFrac text ≤ 3 / 10 → detect_language text = "en") ∧
    (3 / 10 < nonAsciiFrac text → detect_language text = "es") ∧
    (detect_language text = "en" ∨ detect_language text = "es") := by
  refine ⟨?_, ?_, ?_, ?_⟩
  · intro h; subst h; rfl
  · intro hle
    rw [detect_language_eq]
    by_cases h0 : text.length = 0
    · rw [if_pos h0]
    · rw [if_neg h0, if_neg (not_lt.mpr hle)]
  · intro hlt
    have h0 : text.length ≠ 0 := by
      intro h
      rw [nonAsciiFrac, h] at hlt
      norm_num at hlt
    rw [detect_language_eq, if_neg h0, if_pos hlt]
  · rw [detect_language_eq]
    by_cases h0 : text.length = 0
    · left; rw [if_pos h0]
    · by_cases h1 : 3 / 10 < nonAsciiFrac text
      · right; rw [if_neg h0, if_pos h1]
      · left; rw [if_neg h0, if_neg h1]

theorem detect_language_heuristic_witness :
    detect_language "ÀÀÀÀÀ hello" = "es" ∧ detect_language "hello" = "en" ∧
    detect_language "" = "en" :=
  ⟨(detect_language_heuristic "ÀÀÀÀÀ hello").2.2.1 (by
      have h1 : countNonAscii "ÀÀÀÀÀ hello" = 5 := by decide
      have h2 : ("ÀÀÀÀÀ hello" : String).length = 11 := by decide
      rw [nonAsciiFrac, h1, h2]; norm_num),
   (detect_language_heuristic "hello").2.1 (by
      have h1 : countNonAscii "hello" = 0 := by decide
      have h2 : ("hello" : String).length = 5 := by decide
      rw [nonAsciiFrac, h1, h2]; norm_num),
   (detect_language_heuristic "").1 rfl⟩

/-- C8: `get_text_confidence` returns the arithmetic mean of exactly the
strictly positive per-token confidence values, 0 when there are none or
when the library call raised, and — given the library contract that each
confidence value is at most 100 — the result always lies in [0, 100]. -/
theorem get_text_confidence_mean (o : OcrOutcome) :
    (o.ocrConf = none → get_text_confidence o = 0) ∧
    (∀ data, o.ocrConf = some data →
      ((data.filter (fun conf => 0 < conf) = [] → get_text_confidence o = 0) ∧
       (data.filter (fun conf => 0 < conf) ≠ [] →
         get_text_confidence o =
           ((data.filter (fun conf => 0 < conf)).sum : ℚ) /
             ((data.filter (fun conf => 0 < conf)).length : ℚ)))) ∧
    (∀ data, o.ocrConf = some data → (∀ c ∈ data, c ≤ 100) →
      0 ≤ get_text_confidence o ∧ get_text_confidence o ≤ 100) := by
  refine ⟨?_, ?_, ?_⟩
  · intro h
    simp [get_text_confidence, h]
  · intro data hd
    constructor
    · intro he
      simp [get_text_confidence, hd, he]
    · intro hne
      simp only [get_text_confidence, hd]
      rw [if_pos hne]
  · intro data hd h100
    have hpos : ∀ c ∈ data.filter (fun conf => 0 < conf), 0 < c := by
      intro c hc
      have := (List.mem_filter.mp hc).2
      simpa using this
    have h100f : ∀ c ∈ data.filter (fun conf => 0 < conf), c ≤ 100 :=
      fun c hc => h100 c (List.mem_filter.mp hc).1
    by_cases hne : data.filter (fun conf => 0 < conf) = []
    · simp [get_text_confidence, hd, hne]
    · have hval : get_text_confidence o =
          ((data.filter (fun conf => 0 < conf)).sum : ℚ) /
            ((data.filter (fun conf => 0 < conf)).length : ℚ) := by
        simp only [get_text_confidence, hd]
        rw [if_pos hne]
      have hlenpos : 0 < ((data.filter (fun conf => 0 < conf)).length : ℚ) := by
        have := List.length_pos.mpr hne
        exact_mod_cast this
      have hsum0 : (0 : ℚ) ≤ ((data.filter (fun conf => 0 < conf)).sum : ℚ) := by
        exact_mod_cast list_sum_nonneg_of_pos _ hpos
      constructor
      · rw [hval]
        exact div_nonneg hsum0 (le_of_lt hlenpos)
      · rw [hval, div_le_iff₀ hlenpos]
        have := list_sum_le_mul_length (data.filter (fun conf => 0 < conf)) 100 h100f
        have hcast : ((data.filter (fun conf => 0 < conf)).sum : ℚ) ≤
            100 * ((data.filter (fun conf => 0 < conf)).length : ℚ) := by
          exact_mod_cast this
        linarith

theorem get_text_confidence_mean_witness :
    get_text_confidence ⟨true, some "x", some [50, -1, 90]⟩ = 70 ∧
    0 ≤ get_text_confidence ⟨true, some "x", some [50, -1, 90]⟩ ∧
    get_text_confidence ⟨true, some "x", some [50, -1, 90]⟩ ≤ 100 := by
  have hfilter : ([50, -1, 90] : List Int).filter (fun conf => 0 < conf) = [50, 90] := by
    decide
  have h := (get_text_confidence_mean ⟨true, some "x", some [50, -1, 90]⟩).2.1
    [50, -1, 90] rfl
  have hb := (get_text_confidence_mean ⟨true, some "x", some [50, -1, 90]⟩).2.2
    [50, -1, 90] rfl (by decide)
  refine ⟨?_, hb.1, hb.2⟩
  rw [h.2 (by rw [hfilter]; simp), hfilter]
  norm_num

/-- C3 counterexample: when the text-extraction OCR call raises but the
confidence OCR call succeeds with a positive value (the two library calls
sit in separate try blocks and fail independently), the returned triple is
`("", 80, "en")`, whose confidence is not 0.0 — so "on any OCR-library
exception the result is exactly ("", 0.0, "en")" is false. -/
theorem process_uploaded_image_ocr_fail_cex :
    (OcrOutcome.mk true none (some [80])).ocrText = none ∧
    process_uploaded_image ⟨true, none, some [80]⟩ = ("", 80, "en") ∧
    ((("" : String), (80 : ℚ), ("en" : String)) ≠ ("", 0, "en")) := by
  have hfilter : ([(80 : Int)]).filter (fun conf => 0 < conf) = [80] := by decide
  have hconf : get_text_confidence ⟨true, none, some [80]⟩ = 80 := by
    simp only [get_text_confidence, hfilter]
    norm_num
  refine ⟨rfl, ?_, ?_⟩
  · simp only [process_uploaded_image]
    rw [hconf]
    rfl
  · intro h
    have h80 := congrArg (fun t : String × ℚ × String => t.2.1) h
    norm_num at h80

/-- C3 (amended): `process_uploaded_image` never raises (it is a total
function of the library outcome).  An exception escaping to its own try
block (image decoding) yields exactly `("", 0.0, "en")`.  The two OCR
calls fail soft independently: a failing text extraction yields empty
text, a failing confidence computation yields confidence 0.0, and when
both fail the result is exactly `("", 0.0, "en")`.  An empty image — OCR
yields empty text and no strictly positive confidence values — also
yields `("", 0.0, "en")`. -/
theorem process_uploaded_image_soft_fail (o : OcrOutcome) :
    (o.decodeOk = false → process_uploaded_image o = ("", 0, "en")) ∧
    (o.ocrText = none → (process_uploaded_image o).1 = "") ∧
    (o.ocrConf = none → (process_uploaded_image o).2.1 = 0) ∧
    (o.ocrText = none → o.ocrConf = none → process_uploaded_image o = ("", 0, "en")) ∧
    (∀ confs, o.ocrText = some "" → o.ocrConf = some confs →
      (∀ c ∈ confs, c ≤ 0) → process_uploaded_image o = ("", 0, "en")) := by
  refine ⟨?_, ?_, ?_, ?_, ?_⟩
  · intro h
    simp [process_uploaded_image, h]
  · intro h
    by_cases hd : o.decodeOk
    · simp [process_uploaded_image, hd, extract_text, h]
    · simp [process_uploaded_image, hd]
  · intro h
    by_cases hd : o.decodeOk
    · simp [process_uploaded_image, hd, get_text_confidence, h]
    · simp [process_uploaded_image, hd]
  · intro ht hc
    by_cases hd : o.decodeOk
    · simp [process_uploaded_image, hd, extract_text, ht, get_text_confidence, hc,
        detect_language]
    · simp [process_uploaded_image, hd]
  · intro confs ht hc hnp
    have hfilter : confs.filter (fun conf => 0 < conf) = [] := by
      rw [List.filter_eq_nil_iff]
      intro c hcmem
      simpa using not_lt.mpr (hnp c hcmem)
    by_cases hd : o.decodeOk
    · have htext : extract_text o = "" := by
        simp [extract_text, ht]
        rfl
      have hconf : get_text_confidence o = 0 := by
        simp [get_text_confidence, hc, hfilter]
      simp [process_uploaded_image, hd, htext, hconf, detect_language]
    · simp [process_uploaded_image, hd]

theorem process_uploaded_image_soft_fail_witness :
    process_uploaded_image ⟨false, none, none⟩ = ("", 0, "en") ∧
    process_uploaded_image ⟨true, none, none⟩ = ("", 0, "en") ∧
    process_uploaded_image ⟨true, some "", some [0, -1]⟩ = ("", 0, "en") :=
  ⟨(process_uploaded_image_soft_fail ⟨false, none, none⟩).1 rfl,
   (process_uploaded_image_soft_fail ⟨true, none, none⟩).2.2.2.1 rfl rfl,
   (process_uploaded_image_soft_fail ⟨true, some "", some [0, -1]⟩).2.2.2.2
     [0, -1] rfl rfl (by decide)⟩

/-- C1 counterexample: with the model unloaded (the `initEngine` state),
`translate_text` does not return a fixed "unable to generate" message: it
returns its input text, so two different inputs give two different
results. -/
theorem translate_text_not_fixed_cex :
    initEngine.model_loaded = false ∧
    translate_text oracleFail initEngine "hello" "es" = "hello" ∧
    translate_text oracleFail initEngine "world" "es" = "world" ∧
    ("hello" : String) ≠ "world" := by
  refine ⟨rfl, ?_, ?_, by decide⟩ <;> rfl

/-- C1 (amended): when the model is not loaded or the generation call
raises, `summarize_text`, `answer_question` and `explain_concept` return
their fixed "Unable to generate ..." messages, while `translate_text`
instead falls back to returning the input text unchanged. -/
theorem tasks_fail_soft (oracle : GenOracle) (st : EngineState) (text language : String)
    (hfail : st.model_loaded = false ∨ ∀ s p n, oracle s p n = none)
    (htext : pyStrip text ≠ "") :
    summarize_text oracle st text language = "Unable to generate summary at this time." ∧
    answer_question oracle st text language = "Unable to generate answer at this time." ∧
    explain_concept oracle st text language = "Unable to generate explanation at this time." ∧
    translate_text oracle st text language = text := by
  have hg : ∀ prompt maxLen, generate_response oracle st prompt maxLen = "" :=
    fun prompt maxLen => generate_response_fail oracle st prompt maxLen hfail
  refine ⟨?_, ?_, ?_, ?_⟩ <;>
    simp [summarize_text, answer_question, explain_concept, translate_text, hg, htext]

theorem tasks_fail_soft_witness :
    summarize_text oracleFail initEngine "abc" "en" = "Unable to generate summary at this time." ∧
    answer_question oracleFail initEngine "abc" "en" = "Unable to generate answer at this time." ∧
    explain_concept oracleFail initEngine "abc" "en" = "Unable to generate explanation at this time." ∧
    translate_text oracleFail initEngine "abc" "en" = "abc" :=
  tasks_fail_soft oracleFail initEngine "abc" "en" (Or.inl rfl) (by decide)

/-- C5 counterexample: with prompt "hi" and decoded model output
"hihi there" (the echoed prompt followed by a continuation that itself
starts with the prompt text), `generate_response` returns "hi there",
which has the original prompt "hi" as a prefix — refuting "never returns
a string that has the original prompt as a prefix". -/
theorem generate_response_echo_remains_cex :
    generate_response oracleEcho loadedEngine "hi" none = "hi" ++ " there" := by
  decide

/-- C5 (amended): `generate_response` removes the echoed prompt by
dropping the first `len(prompt)` characters of the decoded output and
stripping whitespace: whenever the decoded output is `prompt ++ rest`,
the result is exactly the stripped `rest`.  The result may nevertheless
still begin with the prompt text when `rest` itself does. -/
theorem generate_response_strips_echo (oracle : GenOracle) (st : EngineState)
    (prompt rest : String) (max_length : Option Int)
    (hl : st.model_loaded = true)
    (ho : oracle st prompt (effectiveLength st max_length) = some (prompt ++ rest)) :
    generate_response oracle st prompt max_length = pyStrip rest := by
  have hdrop : dropChars (prompt ++ rest) prompt.length = rest := by
    rw [dropChars]
    have happ : (prompt ++ rest).toList = prompt.toList ++ rest.toList :=
      String.data_append prompt rest
    rw [happ]
    have hlen : prompt.length = prompt.toList.length := rfl
    rw [hlen, List.drop_left]
    rfl
  simp only [generate_response, hl, if_true, ho, hdrop]

theorem generate_response_strips_echo_witness :
    generate_response oracleEcho loadedEngine "hi" none = pyStrip "hi there" :=
  generate_response_strips_echo oracleEcho loadedEngine "hi" "hi there" none rfl
    (by decide)

/-- C6: for every task kind and every language code, the constructed
prompt contains the user-supplied text verbatim as a substring (lossless
interpolation into the template's single placeholder), and any language
code outside the supported set en/es/fr/de falls back to the English
template. -/
theorem prompt_construction_lossless (task : TaskKind) (language text : String) :
    (∃ p s, buildPrompt task language text = p ++ text ++ s) ∧
    (language ∉ (["en", "es", "fr", "de"] : List String) →
      buildPrompt task language text = buildPrompt task "en" text) := by
  constructor
  · exact ⟨(taskTemplate task language).pre, (taskTemplate task language).post, rfl⟩
  · intro h
    simp only [List.mem_cons, List.not_mem_nil, or_false, not_or] at h
    obtain ⟨h1, h2, h3, h4⟩ := h
    cases task <;>
      simp [buildPrompt, taskTemplate, promptsSummarize, promptsAnswer, promptsExplain,
        translation_prompts, h1, h2, h3, h4]

theorem prompt_construction_lossless_witness :
    (∃ p s, buildPrompt TaskKind.summarize "xx" "TXT" = p ++ "TXT" ++ s) ∧
    buildPrompt TaskKind.summarize "xx" "TXT" = buildPrompt TaskKind.summarize "en" "TXT" :=
  ⟨(prompt_construction_lossless TaskKind.summarize "xx" "TXT").1,
   (prompt_construction_lossless TaskKind.summarize "xx" "TXT").2 (by decide)⟩
